import Mathlib

/-!
Verification model of the minionworks/minions autonomous web-browsing agent.

This file shallowly embeds the Python modules that the verified properties
are about:

* `src/minion_agent/browser/utils/page_extraction_llm.py`
  (`OpenAIPageExtractionLLM.extract_with_function_call`)
* `src/minion_agent/browser/services/content_extraction.py`
  (`process_extracted_content`)
* `src/agents/browser/services/google_search.py`
  (`search_google`, `search_next_page`)
* `src/minion_agent/browser/utils/mcp_planner.py` (`MCPPlanner`)
* `src/minion_agent/browser/services/orchestrator.py` (`mcp_guided_scraping`)

Python dynamic values are modelled by `PyVal`; exceptions by `Except String`;
the external LLM (the reasoning oracle), the browser driver and the `json`
library are passed in as explicit arguments, scripted per loop iteration.
-/

/-- A Python/JSON-style dynamic value: the values that flow out of
`json.loads`, live in the planner context, and make up extraction records.
Numbers are modelled as rationals (the relevance scores 0, 0.3, ..., 1.0 are
exact decimals, and `min` keeps every bound exact). -/
inductive PyVal where
  | str (s : String)
  | rat (q : ℚ)
  | list (xs : List PyVal)
  | dict (fields : List (String × PyVal))

/-- Python truthiness (`if v:`) for the modelled values: empty strings, empty
lists, empty dicts and zero are falsy. -/
def pyTruthy : PyVal → Bool
  | .str s => !(s == "")
  | .rat q => !(q == 0)
  | .list xs => !xs.isEmpty
  | .dict d => !d.isEmpty

/-- Python `len(v)`: defined for strings, lists and dicts; `none` models the
`TypeError` raised on a number. -/
def pyLen : PyVal → Option Nat
  | .str s => some s.data.length
  | .rat _ => none
  | .list xs => some xs.length
  | .dict d => some d.length

/-- Python `d.get(k)` / `k in d` support: the value stored under string key
`k` in an association-list dict (Python dict keys are unique, so the first
binding is the binding). -/
def lookupKey (k : String) : List (String × PyVal) → Option PyVal
  | [] => none
  | (a, b) :: t => if a = k then some b else lookupKey k t

/-- Substring containment on character lists (used for Python's `in` on
strings). -/
def listInfixOf (needle : List Char) : List Char → Bool
  | [] => needle.isEmpty
  | c :: cs => needle.isPrefixOf (c :: cs) || listInfixOf needle cs

/-- Python `k in v` for a string key `k`: key membership for dicts, element
equality for lists, substring test for strings; `none` models the `TypeError`
raised on a number. -/
def pyInStr (k : String) : PyVal → Option Bool
  | .dict d => some (lookupKey k d).isSome
  | .list xs => some (xs.any fun v => match v with | .str s => k == s | _ => false)
  | .str s => some (listInfixOf k.data s.data)
  | .rat _ => none

/-- `v == "lit"` in Python: only a `str` with the same characters compares
equal to a string literal. -/
def pyEqStr (v : PyVal) (lit : String) : Bool :=
  match v with
  | .str s => s == lit
  | _ => false

/-- Python `s.strip()`: drop leading and trailing whitespace. -/
def pyStrip (s : String) : String :=
  ⟨((s.data.dropWhile Char.isWhitespace).reverse.dropWhile Char.isWhitespace).reverse⟩

/-- Python slice `s[n:]`. -/
def strDrop (n : Nat) (s : String) : String := ⟨s.data.drop n⟩

/-- Python slice `s[:n]` (also `s[:-k]` as `strTake (len - k) s`). -/
def strTake (n : Nat) (s : String) : String := ⟨s.data.take n⟩

/-- Python `s.startswith(p)`. -/
def strStartsWith (p s : String) : Bool := p.data.isPrefixOf s.data

/-- Python `s.endswith(p)`. -/
def strEndsWith (p s : String) : Bool := p.data.isSuffixOf s.data

/-- Python `sub in s` for plain strings (substring containment). -/
def strContains (sub s : String) : Bool := listInfixOf sub.data s.data

/-- Python `s.upper()` (ASCII uppercasing, as used on action names). -/
def pyUpper (s : String) : String := ⟨s.data.map Char.toUpper⟩

/-- First occurrence of `delim` in `l`: returns the characters before the
occurrence and the characters after it. -/
def splitFirst (delim : List Char) : List Char → Option (List Char × List Char)
  | [] => if delim.isEmpty then some ([], []) else none
  | c :: cs =>
    if delim.isPrefixOf (c :: cs) then some ([], (c :: cs).drop delim.length)
    else match splitFirst delim cs with
      | some (pre, post) => some (c :: pre, post)
      | none => none

/-- The fenced-JSON search both extraction files perform with
`re.search(r'(three backticks)json\s*(.*?)\s*(three backticks)', ..., re.DOTALL)`:
the text strictly between the first ```json fence and the next closing
fence, with surrounding whitespace stripped. -/
def fencedJson (s : String) : Option String :=
  match splitFirst "```json".data s.data with
  | none => none
  | some (_, rest) =>
    match splitFirst "```".data rest with
    | none => none
    | some (captured, _) => some (pyStrip ⟨captured⟩)

/-! ## `extract_with_function_call`
(`src/minion_agent/browser/utils/page_extraction_llm.py`, lines 23-203)

The oracle is a function from the message list to either an exception (the
outer `except` at line 195) or a reply object. A reply is a Python dict, a
plain string, or a LangChain-style object carrying up to three attributes:
`function_call.arguments`, `content`, and
`additional_kwargs["function_call"]["arguments"]` (each modelled as the
argument string when present). `json.loads` is the external `json` library,
passed as `loads`; `none` models a `JSONDecodeError`. -/

/-- A reply object from `self.llm.ainvoke` as the parsing cascade sees it. -/
inductive LLMResponse where
  | pyDict (d : List (String × PyVal))
  | pyStr (s : String)
  | obj (fcArgs : Option String) (content : Option String) (akwArgs : Option String)

/-- Outcome of the parsing cascade (lines 102-181): either some parse method
`return`ed a reply-derived value, or control reached the fallback at
line 186 (including via the inner `except Exception` at line 182). -/
inductive CascadeResult where
  | parsed (v : PyVal)
  | fallback

/-- Fence cleanup of `function_call.arguments` (lines 115-120): drop a
leading ```json (7 characters), drop a trailing ```, then strip. -/
def cleanArguments (args : String) : String :=
  let a1 := if strStartsWith "```json" args then strDrop 7 args else args
  let a2 := if strEndsWith "```" a1 then strTake (a1.data.length - 3) a1 else a1
  pyStrip a2

/-- Method 4 of the cascade (lines 149-158): parse
`additional_kwargs["function_call"]["arguments"]` when present. A parse
failure, or a parsed value that is not a dict (the `.get` in the log call at
line 157 raises), lands in the inner `except` and hence the fallback. When
the attribute is absent, method 5 does not apply to an object reply and
control reaches the fallback through line 180. -/
def cascadeMethod4 (akwArgs : Option String) (loads : String → Option PyVal) :
    CascadeResult :=
  match akwArgs with
  | some args =>
    match loads args with
    | some (.dict d) => .parsed (.dict d)
    | some _ => .fallback
    | none => .fallback
  | none => .fallback

/-- Method 3 of the cascade (lines 126-147) for an object reply with a
truthy `content` attribute, falling through to method 4 where the source
does. The fenced branch requires a dict for the same `.get`-logging reason
as method 2; the direct-`json.loads` branch catches only `JSONDecodeError`
(falling through to method 4), while a `TypeError` from `"action" in v` on a
number propagates to the inner `except` and hence the fallback. -/
def cascadeMethod3 (c : String) (akwArgs : Option String)
    (loads : String → Option PyVal) : CascadeResult :=
  match fencedJson c with
  | some captured =>
    match loads captured with
    | some (.dict d) => .parsed (.dict d)
    | some _ => .fallback
    | none => .fallback
  | none =>
    match loads c with
    | some v =>
      match pyInStr "action" v with
      | some true => .parsed v
      | some false => cascadeMethod4 akwArgs loads
      | none => .fallback
    | none => cascadeMethod4 akwArgs loads

/-- The full parsing cascade of `extract_with_function_call`
(lines 102-181), one constructor case per reply shape:

* dict reply: method 1 returns it verbatim when it has an `action` key;
  otherwise no later method applies and the fallback is reached;
* object reply: method 2 (`function_call.arguments`, fence-cleaned; parse
  failure or non-dict aborts to the fallback via the inner `except`), else
  method 3 (`content`, when truthy), else method 4 (`additional_kwargs`);
* string reply: method 5 — fenced JSON is returned verbatim with no check
  at all (line 168); otherwise a direct parse is returned when
  `"action" in` it holds; everything else reaches the fallback. -/
def cascade (resp : LLMResponse) (loads : String → Option PyVal) :
    CascadeResult :=
  match resp with
  | .pyDict d =>
    if (lookupKey "action" d).isSome then .parsed (.dict d) else .fallback
  | .obj fcArgs content akwArgs =>
    match fcArgs with
    | some args =>
      match loads (cleanArguments args) with
      | some (.dict d) => .parsed (.dict d)
      | some _ => .fallback
      | none => .fallback
    | none =>
      match content with
      | some c => if c == "" then cascadeMethod4 akwArgs loads
                  else cascadeMethod3 c akwArgs loads
      | none => cascadeMethod4 akwArgs loads
  | .pyStr s =>
    match fencedJson s with
    | some captured =>
      match loads captured with
      | some v => .parsed v
      | none => .fallback
    | none =>
      match loads s with
      | some v =>
        match pyInStr "action" v with
        | some true => .parsed v
        | some _ => .fallback
        | none => .fallback
      | none => .fallback

/-- A chat message: `(role, content)`. -/
structure Msg where
  role : String
  content : String

/-- The system message of the extraction call (lines 37-41). -/
def extractionSystemMsg : Msg :=
  ⟨"system",
    "You are analyzing a web page to extract relevant information. " ++
    "Based on the content, determine whether it answers the user's question. " ++
    "If it does, create a summary and extract key points."⟩

/-- The user message of the extraction call (lines 42-45): the goal plus the
page content truncated to its first 10000 characters
(`content[:10000]`, the comment in the source says
"Truncate to avoid token limits"). -/
def extractionUserMsg (content goal : String) : Msg :=
  ⟨"user", "Question: " ++ goal ++ "\n\n" ++ "Page Content:\n" ++
    strTake 10000 content⟩

/-- The full message list handed to the oracle for one extraction call. The
LangChain conversion loop (lines 85-90) rebuilds the same list and is
omitted. -/
def extractionMessages (content goal : String) : List Msg :=
  [extractionSystemMsg, extractionUserMsg content goal]

/-- The fallback record of lines 187-193: `next_url` with all fields empty. -/
def defaultExtractionRecord : PyVal :=
  .dict [("action", .str "next_url"), ("summary", .str ""),
         ("key_points", .list []), ("context", .str ""), ("output", .str "")]

/-- The outer-exception record of lines 197-202: same shape, but `output`
carries the error text. -/
def errorExtractionRecord (e : String) : PyVal :=
  .dict [("action", .str "next_url"), ("summary", .str ""),
         ("key_points", .list []), ("context", .str ""),
         ("output", .str ("Error: " ++ e))]

/-- `OpenAIPageExtractionLLM.extract_with_function_call` (lines 23-203).
`oracle` is `self.llm.ainvoke`; its `Except.error` case is the outer
`except` (line 195). Besides the record, the returned list logs the message
list of every oracle call made — the source makes exactly one. -/
def extract_with_function_call (oracle : List Msg → Except String LLMResponse)
    (loads : String → Option PyVal) (content goal : String) :
    PyVal × List (List Msg) :=
  (match oracle (extractionMessages content goal) with
   | .error e => errorExtractionRecord e
   | .ok resp =>
     match cascade resp loads with
     | .parsed v => v
     | .fallback => defaultExtractionRecord,
   [extractionMessages content goal])

example :
    (extract_with_function_call
      (fun _ => .ok (.pyDict [("action", .str "maybe")])) (fun _ => none)
      "c" "g").1 = .dict [("action", .str "maybe")] := by rfl

example :
    (extract_with_function_call (fun _ => .error "boom") (fun _ => none)
      "c" "g").1 = errorExtractionRecord "boom" := by rfl

/-! ## `process_extracted_content`
(`src/minion_agent/browser/services/content_extraction.py`, lines 136-182) -/

/-- Python dict assignment `d[k] = v`: replace the value when the key is
present (dict keys are unique, so at its one binding), else append the new
binding. -/
def dictSet (d : List (String × PyVal)) (k : String) (v : PyVal) :
    List (String × PyVal) :=
  match d with
  | [] => [(k, v)]
  | (a, b) :: t => if a = k then (a, v) :: t else (a, b) :: dictSet t k v

/-- The `page_metadata` f-string of lines 151-156 (a triple-quoted literal
with its indentation). -/
def pageMetadata (url title : String) : String :=
  "\n    URL: " ++ url ++ "\n    TITLE: " ++ title ++ "\n    \n    CONTENT:\n    "

/-- The test of line 169, `extraction_result.get("action") == "final"`:
an absent key yields `None`, which is not equal to the string. -/
def actionIsFinal (er : List (String × PyVal)) : Bool :=
  match lookupKey "action" er with
  | some v => pyEqStr v "final"
  | none => false

/-- The relevance-score computation of lines 163-175, on an extraction-result
dict. `0.1`, `0.3`, `0.9` are exact here; `Except.error` models the
`TypeError` raised by `len(key_points)` when `key_points` is a number (only
reached when `summary` is truthy, because `and` short-circuits). -/
def relevanceScore (er : List (String × PyVal)) : Except String ℚ :=
  if actionIsFinal er then
    .ok 1
  else
    let summary := (lookupKey "summary" er).getD (.str "")
    let keyPoints := (lookupKey "key_points" er).getD (.list [])
    if pyTruthy summary then
      match pyLen keyPoints with
      | none => .error "TypeError: len"
      | some n =>
        if n > 2 then .ok (min (9/10 : ℚ) ((3/10 : ℚ) + (n : ℚ) * (1/10 : ℚ)))
        else .ok (3/10 : ℚ)
    else .ok 0

/-- `process_extracted_content` (lines 136-182): prepend the page metadata,
run the extraction call, then enhance the record with `relevance_score`,
`page_url` and `page_title`. `Except.error` models the `AttributeError`
raised by `extraction_result.get(...)` / item assignment when the extraction
call returned a non-dict value, and the `TypeError` from `relevanceScore`;
both propagate to the caller (this function has no handler). -/
def process_extracted_content (oracle : List Msg → Except String LLMResponse)
    (loads : String → Option PyVal) (content title url goal : String) :
    Except String PyVal :=
  let contentWithMetadata := pageMetadata url title ++ content
  match (extract_with_function_call oracle loads contentWithMetadata goal).1 with
  | .dict d =>
    match relevanceScore d with
    | .error e => .error e
    | .ok q =>
      .ok (.dict (dictSet (dictSet (dictSet d "relevance_score" (.rat q))
        "page_url" (.str url)) "page_title" (.str title)))
  | _ => .error "AttributeError: get"

/-! ## The search service
(`src/agents/browser/services/google_search.py`, lines 33-69) -/

/-- A search result `{title, url}` as built by the in-page script of
`search_google` / `search_next_page` (title text and the link's href). -/
structure SearchResult where
  title : String
  url : String
deriving DecidableEq

/-- `search_google` (lines 33-48). `pageNav` is the outcome of
`page.goto(search_url)` + `wait_for_load_state`, `evalResults` the outcome
of `page.evaluate` (which already truncates to 10 results in the page
script). The body has no `try`/`except`: a driver failure propagates to
the caller unchanged. -/
def search_google (pageNav : Except String Unit)
    (evalResults : Except String (List SearchResult)) :
    Except String (List SearchResult) :=
  match pageNav with
  | .error e => .error e
  | .ok _ => evalResults

/-- `search_next_page` (lines 50-69). `nextButton` is the result of
`query_selector('a#pnnext')`; when it is absent the function returns `[]`,
otherwise the click + reload + evaluate outcome (`clickEval`) is returned,
errors again propagating. -/
def search_next_page (nextButton : Option Unit)
    (clickEval : Except String (List SearchResult)) :
    Except String (List SearchResult) :=
  match nextButton with
  | some _ => clickEval
  | none => .ok []

/-! ## The MCP planner
(`src/minion_agent/browser/utils/mcp_planner.py`) -/

/-- One element of `context["search_results"]`. The orchestrator normally
stores result dicts (`res`), but `update_context("search_results", ...)` at
orchestrator line 176 appends a whole result *list* as a single element
(`MCPPlanner.update_context` appends the value to an existing list), so a
nested list can appear; reading it later raises. -/
inductive SRItem where
  | res (r : SearchResult)
  | nested (l : List SearchResult)
deriving DecidableEq

/-- The URL of a plain result element; `none` models the `AttributeError`
raised by `r.get("url")` on a nested list. -/
def SRItem.urlOf : SRItem → Option String
  | .res r => some r.url
  | .nested _ => none

/-- `MCPPlanner.context` (`__init__`, lines 26-31). `search_results` and
`interactive_actions` are not initialised there, so absence is `none`. The
`self.state` string only feeds prompts and logs and is omitted. -/
structure Context where
  visited_urls : List String
  extracted_content : List (String × PyVal)
  search_queries : List String
  final_answers : List String
  search_results : Option (List SRItem)
  interactive_actions : Option PyVal

/-- The context as `MCPPlanner.__init__` builds it. -/
def initialContext : Context :=
  ⟨[], [], [], [], none, none⟩

/-- `self.max_visited_urls = 15` (line 33, "Prevent infinite loops"). -/
def max_visited_urls : Nat := 15

/-- `MCPPlanner.add_visited_url` (lines 53-61): append only when absent. -/
def add_visited_url (c : Context) (url : String) : Context :=
  if c.visited_urls.contains url then c
  else {c with visited_urls := c.visited_urls ++ [url]}

/-- `MCPPlanner.add_extracted_content` (lines 63-74): append a
`{url, content}` record. -/
def add_extracted_content (c : Context) (url : String) (content : PyVal) :
    Context :=
  {c with extracted_content := c.extracted_content ++ [(url, content)]}

/-- `MCPPlanner.add_search_query` (lines 76-83). -/
def add_search_query (c : Context) (q : String) : Context :=
  {c with search_queries := c.search_queries ++ [q]}

/-- `MCPPlanner.update_context("interactive_actions", v)` (lines 35-51):
set when absent or non-list, append when the stored value is a list. -/
def update_context_interactive (c : Context) (v : PyVal) : Context :=
  match c.interactive_actions with
  | some (.list xs) => {c with interactive_actions := some (.list (xs ++ [v]))}
  | some _ => {c with interactive_actions := some v}
  | none => {c with interactive_actions := some v}

/-- `MCPPlanner.update_context("search_results", new_results)`
(orchestrator line 176 through planner lines 35-51): set when the key is
absent, otherwise append the whole new list as one element. -/
def update_context_search_results (c : Context) (new : List SearchResult) :
    Context :=
  match c.search_results with
  | none => {c with search_results := some (new.map .res)}
  | some l => {c with search_results := some (l ++ [.nested new])}

/-- `MCPPlanner.should_continue_scraping` (lines 85-101): stop once a final
answer exists or the visited-URL list has reached `max_visited_urls`. -/
def should_continue_scraping (c : Context) : Bool :=
  if !c.final_answers.isEmpty then false
  else if c.visited_urls.length ≥ max_visited_urls then false
  else true

/-- Truthiness of `self.context.get("search_results")` (planner line 185). -/
def searchResultsTruthy (c : Context) : Bool :=
  match c.search_results with
  | some l => !l.isEmpty
  | none => false

/-- Truthiness of the orchestrator's `current_url` local (`if current_url:`). -/
def currentUrlTruthy : Option String → Bool
  | some u => !(u == "")
  | none => false

/-- The markdown-fence cleanup `decide_next_action` applies to the raw oracle
reply before `json.loads` (planner lines 168-176): strip, drop a leading
```json, drop a trailing ```, strip again. -/
def clean_planner_reply (raw : String) : String :=
  let c1 := pyStrip raw
  let c2 := if strStartsWith "```json" c1 then strDrop 7 c1 else c1
  let c3 := if strEndsWith "```" c2 then strTake (c2.data.length - 3) c2 else c2
  pyStrip c3

/-- `MCPPlanner.decide_next_action` (lines 103-193). `reply` is the outcome
of `self.llm.ainvoke` (an error propagates — there is no handler for the
oracle call itself); a parseable reply is returned as parsed, verbatim.
On `json.JSONDecodeError` the "smart fallback" of lines 181-193 picks
EXTRACT when on a page, else NAVIGATE when search results exist, else
FINISH when both pages and extractions exist, else SEARCH with the user
goal as query. -/
def decide_next_action (goal : String) (reply : Except String String)
    (loads : String → Option PyVal) (c : Context) (cur : Option String) :
    Except String PyVal :=
  match reply with
  | .error e => .error e
  | .ok raw =>
    match loads (clean_planner_reply raw) with
    | some v => .ok v
    | none =>
      if currentUrlTruthy cur then .ok (.dict [("action", .str "EXTRACT")])
      else if searchResultsTruthy c then
        .ok (.dict [("action", .str "NAVIGATE")])
      else if 0 < c.visited_urls.length ∧ 0 < c.extracted_content.length then
        .ok (.dict [("action", .str "FINISH")])
      else .ok (.dict [("action", .str "SEARCH"), ("query", .str goal)])

/-- `MCPPlanner.generate_final_answer` (lines 195-238). Building
`relevant_content` calls `.get` on every stored extraction record, so a
non-dict record raises (`Except.error`); then the synthesis oracle call
(`synth`) may itself fail; on success the answer is appended to
`final_answers` and returned. -/
def generate_final_answer (c : Context) (synth : Except String String) :
    Except String (String × Context) :=
  if c.extracted_content.any
      (fun p => match p.2 with | .dict _ => false | _ => true) then
    .error "AttributeError: get"
  else
    match synth with
    | .error e => .error e
    | .ok ans => .ok (ans, {c with final_answers := c.final_answers ++ [ans]})

/-! ## `format_context_for_display`
(`src/minion_agent/browser/utils/helpers.py`, lines 32-81)

The orchestrator's FINISH branch calls this helper (orchestrator line 224)
with no handler, so its exceptions crash the task. The helper appends the
raw `summary` value of each stored record to the line list, so
`"\n".join(output)` at line 81 raises a `TypeError` when some summary is
not a string; iterating a numeric `key_points` at line 72 also raises.
(`save_output`, helpers.py lines 7-30, catches all its own exceptions and
never raises.) -/

/-- Python `str(x)` as it appears inside the helper's f-strings. The exact
rendering of containers and numbers is abbreviated — no theorem depends on
it; what matters is that f-string rendering never raises. -/
def pyFormat : PyVal → String
  | .str s => s
  | .rat q => reprStr q
  | .list _ => "[...]"
  | .dict _ => "\x7b...\x7d"

/-- The lines the `key_points` block (helpers.py lines 69-74) contributes.
`if key_points:` skips falsy values; a truthy number cannot be iterated
(`TypeError`); strings iterate per character, dicts per key, lists per
element — each `f"- {point}"` line is a string. -/
def formatKeyPointLines (kp : PyVal) : Except String (List PyVal) :=
  if pyTruthy kp then
    match kp with
    | .rat _ => .error "TypeError: iteration"
    | .str s => .ok (.str "\nKey points:"
        :: s.data.map (fun ch => PyVal.str ("- " ++ String.mk [ch])))
    | .list xs => .ok (.str "\nKey points:"
        :: xs.map (fun p => PyVal.str ("- " ++ pyFormat p)))
    | .dict dd => .ok (.str "\nKey points:"
        :: dd.map (fun p => PyVal.str ("- " ++ p.1)))
  else .ok []

/-- The `## Extracted Content` section lines (helpers.py lines 61-74), one
record after another; `content.get` on a non-dict record raises. The raw
`summary` value is appended unconverted (line 67). -/
def formatExtractedLines (idx : Nat) :
    List (String × PyVal) → Except String (List PyVal)
  | [] => .ok []
  | (url, content) :: rest =>
    match content with
    | .dict d =>
      let summary := (lookupKey "summary" d).getD (.str "No summary available")
      let keyPoints := (lookupKey "key_points" d).getD (.list [])
      match formatKeyPointLines keyPoints with
      | .error e => .error e
      | .ok kpLines =>
        match formatExtractedLines (idx + 1) rest with
        | .error e => .error e
        | .ok tail =>
          .ok ([.str ("### Source " ++ toString idx ++ ": " ++ url), summary]
            ++ kpLines ++ [.str ""] ++ tail)
    | _ => .error "AttributeError: get"

/-- `"\n".join(output)` (helpers.py line 81): raises a `TypeError` when any
collected line is not a string. -/
def joinPyLines (lines : List PyVal) : Except String String :=
  if lines.all (fun v => match v with | .str _ => true | _ => false) then
    .ok (String.intercalate "\n" (lines.map pyFormat))
  else .error "TypeError: join"

/-- `format_context_for_display` (helpers.py lines 32-81). -/
def format_context_for_display (c : Context) : Except String String :=
  match formatExtractedLines 1 c.extracted_content with
  | .error e => .error e
  | .ok extLines =>
    joinPyLines
      ([.str "# Web Scraping Context Summary", .str "", .str "## Visited URLs"]
        ++ (c.visited_urls.enum.map
            (fun p => PyVal.str (toString (p.1 + 1) ++ ". " ++ p.2)))
        ++ [.str "", .str "## Search Queries"]
        ++ (c.search_queries.enum.map
            (fun p => PyVal.str (toString (p.1 + 1) ++ ". " ++ p.2)))
        ++ [.str "", .str "## Extracted Content"]
        ++ extLines
        ++ (if !c.final_answers.isEmpty then
              [.str "## Final Answer",
               .str (c.final_answers.getLast?.getD "")]
            else []))

/-! ## The MCP-guided orchestrator loop
(`src/minion_agent/browser/services/orchestrator.py`, `mcp_guided_scraping`,
lines 70-237)

`go_to_url`, `search_google`, `search_next_page`, `refine_search_query`,
`perform_page_interactions`, `extract_content` and the synthesis oracle call
are external effects from the loop's viewpoint; each iteration's outcomes
for them are scripted in an `IterInput`. -/

/-- The loop's mutable state: the planner context plus the `current_url`
local of `mcp_guided_scraping`. -/
structure LoopState where
  ctx : Context
  current_url : Option String

/-- Observable actions of one loop iteration (navigation attempts, next-page
fetches, stored extractions, the FINISH return, ...). -/
inductive Event where
  | searched (q : String)
  | navAttempt (url : String)
  | nextPageCall
  | extractedAt (url : String)
  | finishViaFINISH (ans : String)
  | unknownAction (a : String)
deriving DecidableEq

/-- Outcomes of the external calls one iteration may make, in source order:
the planner oracle reply (raw text), `refine_search_query`, `search_google`,
`go_to_url`, `perform_page_interactions`, `extract_content`,
`search_next_page`, and the `generate_final_answer` oracle call. -/
structure IterInput where
  planner_reply : Except String String
  refine : Except String String
  search : Except String (List SearchResult)
  nav : Except String Unit
  interactions : Except String PyVal
  extraction : Except String PyVal
  next_page : Except String (List SearchResult)
  synth : Except String String

/-- Result of one iteration: continue with a new state, return out of the
loop via the FINISH branch, or crash on an unhandled exception. -/
inductive StepOut where
  | cont (s : LoopState) (evts : List Event)
  | finished (ans : String) (c : Context) (evts : List Event)
  | crashed (e : String) (c : Context) (evts : List Event)

/-- The context an iteration leaves behind, in every outcome. -/
def StepOut.ctxOut : StepOut → Context
  | .cont s _ => s.ctx
  | .finished _ c _ => c
  | .crashed _ c _ => c

/-- The events of one iteration. -/
def StepOut.events : StepOut → List Event
  | .cont _ e => e
  | .finished _ _ e => e
  | .crashed _ _ e => e

/-- `action_data` must respond to `.get` (orchestrator line 80): `.error`
models the `AttributeError` on a non-dict parsed reply. -/
def actionDataOf (v : PyVal) : Except String (List (String × PyVal)) :=
  match v with
  | .dict d => .ok d
  | _ => .error "AttributeError: get"

/-- `action_data.get("action", "").upper()` (line 80): missing key gives
`""`, a non-string value raises on `.upper()`. -/
def actionNameOf (d : List (String × PyVal)) : Except String String :=
  match lookupKey "action" d with
  | none => .ok ""
  | some (.str a) => .ok (pyUpper a)
  | some _ => .error "AttributeError: upper"

/-- SEARCH branch (lines 84-105): refine the query (oracle, unprotected),
record it, run `search_google` (unprotected), then either install the
results (when the stored list is absent or empty, line 96) or extend the
stored list with the results whose URLs are new (lines 100-102; computing
`existing_urls` subscripts every stored element, so a nested list element
raises a `TypeError`). -/
def searchBranch (i : IterInput) (s : LoopState) : StepOut :=
  match i.refine with
  | .error e => .crashed e s.ctx []
  | .ok refined =>
    let c1 := add_search_query s.ctx refined
    match i.search with
    | .error e => .crashed e c1 []
    | .ok results =>
      if searchResultsTruthy c1 then
        match c1.search_results with
        | some l =>
          if l.any (fun it => match it with | .nested _ => true | _ => false) then
            .crashed "TypeError: subscript" c1 [.searched refined]
          else
            let existing := l.filterMap SRItem.urlOf
            let newResults := results.filter (fun r => !(existing.contains r.url))
            .cont ⟨{c1 with search_results := some (l ++ newResults.map .res)},
                    s.current_url⟩ [.searched refined]
        | none => .cont s [.searched refined]
      else
        .cont ⟨{c1 with search_results := some (results.map .res)},
                s.current_url⟩ [.searched refined]

/-- The URL picked at lines 117-127: the first unvisited result's URL, or
the first result's URL when every result has been visited. -/
def navigateChoice (srs : List SRItem) (visited : List String) : String :=
  let urls := srs.filterMap SRItem.urlOf
  let unvisited := urls.filter (fun u => !(visited.contains u))
  unvisited.headD (urls.headD "")

/-- What the `if url_to_navigate:` test at line 132 sees after the
substitution block: a truthy string URL to navigate to, a truthy non-string
value (possible when `action_data["url"]` is a non-empty list or dict that
does not contain `"example.com"`), or a falsy value sending the loop to the
next-page branch. -/
inductive NavTarget where
  | toUrl (u : String)
  | badUrl (v : PyVal)
  | noUrl

/-- Lines 112-127 when the substitution triggers: with no stored search
results `url_to_navigate` keeps its original value (so a truthy placeholder
URL is navigated to as-is — string or not — and a falsy value falls through
to the next-page branch); otherwise navigate to `navigateChoice`. Reading
the URL of a nested list element raises. -/
def navSubstitute (orig : Option PyVal) (c : Context) :
    Except String NavTarget :=
  let srs := c.search_results.getD []
  if srs.isEmpty then
    .ok (match orig with
         | some (.str u) => if u == "" then .noUrl else .toUrl u
         | some v => if pyTruthy v then .badUrl v else .noUrl
         | none => .noUrl)
  else
    if srs.any (fun it => match it with | .nested _ => true | _ => false) then
      .error "AttributeError: get"
    else
      let u := navigateChoice srs c.visited_urls
      .ok (if u == "" then .noUrl else .toUrl u)

/-- Lines 109-132: take `action_data.get("url")`; when it is falsy, or
`"example.com" in` it holds (line 112), substitute a search result via
`navSubstitute`. The `in` test is Python membership: substring test on a
string, element/key membership on a list/dict (non-raising), and a
`TypeError` on a number. A truthy value the test rejects is kept: a string
becomes the navigation target, anything else reaches `go_to_url` as a
non-string URL (`badUrl`). -/
def navResolve (urlv : Option PyVal) (c : Context) :
    Except String NavTarget :=
  match urlv with
  | some v =>
    if pyTruthy v then
      match pyInStr "example.com" v with
      | none => .error "TypeError: in"
      | some true => navSubstitute (some v) c
      | some false =>
        match v with
        | .str u => .ok (.toUrl u)
        | _ => .ok (.badUrl v)
    else navSubstitute (some v) c
  | none => navSubstitute none c

/-- Lines 132-171: navigate to the chosen URL. `current_url` is assigned
before the awaited call, so a navigation error resets it to `None`
(state NAVIGATION_ERROR) and the loop continues. On success the URL is
recorded, interactions run (their errors are caught), then extraction runs
inside its own `try` (lines 153-167): its record is appended before the
`.get("action")` state update, and any failure there is caught. -/
def navPerform (i : IterInput) (s : LoopState) (u : String) : StepOut :=
  match i.nav with
  | .error _ => .cont ⟨s.ctx, none⟩ [.navAttempt u]
  | .ok _ =>
    let c1 := add_visited_url s.ctx u
    let c2 := match i.interactions with
              | .ok v => update_context_interactive c1 v
              | .error _ => c1
    match i.extraction with
    | .error _ => .cont ⟨c2, some u⟩ [.navAttempt u]
    | .ok v => .cont ⟨add_extracted_content c2 u v, some u⟩
                 [.navAttempt u, .extractedAt u]

/-- Lines 172-180: with no URL to navigate to, fetch the next results page
(`search_next_page`, unprotected — an error crashes the task) and store a
non-empty result list via `update_context`. -/
def navNextPage (i : IterInput) (s : LoopState) : StepOut :=
  match i.next_page with
  | .error e => .crashed e s.ctx [.nextPageCall]
  | .ok newResults =>
    if newResults.isEmpty then .cont s [.nextPageCall]
    else .cont ⟨update_context_search_results s.ctx newResults,
                 s.current_url⟩ [.nextPageCall]

/-- NAVIGATE branch (lines 107-180). On a truthy non-string URL, Python
assigns it to `current_url` and calls `go_to_url` with it; the driver's
`goto` requires a string URL (spec §4.2: navigation takes an absolute URL),
so the call raises, is caught at line 168, and the loop continues with
`current_url = None` (state NAVIGATION_ERROR) — modelled by the `badUrl`
case. -/
def navigateBranch (i : IterInput) (s : LoopState)
    (d : List (String × PyVal)) : StepOut :=
  match navResolve (lookupKey "url" d) s.ctx with
  | .error e => .crashed e s.ctx []
  | .ok (.toUrl u) => navPerform i s u
  | .ok (.badUrl _) => .cont ⟨s.ctx, none⟩ []
  | .ok .noUrl => navNextPage i s

/-- EXTRACT branch (lines 182-217): only acts when `current_url` is truthy;
interactions' errors are caught, extraction runs in its own `try` with its
record appended before the `.get("action")` state update. -/
def extractBranch (i : IterInput) (s : LoopState) : StepOut :=
  match s.current_url with
  | some u =>
    if u == "" then .cont s []
    else
      let c1 := match i.interactions with
                | .ok v => update_context_interactive s.ctx v
                | .error _ => s.ctx
      match i.extraction with
      | .error _ => .cont ⟨c1, some u⟩ []
      | .ok v => .cont ⟨add_extracted_content c1 u v, some u⟩ [.extractedAt u]
  | none => .cont s []

/-- FINISH branch (lines 219-230): generate the final answer, format the
context for display (line 224, unprotected — its exceptions crash the
task), save the two output files (`save_output` never raises), and return
the answer. No extraction record is consulted before honoring FINISH. -/
def finishBranch (i : IterInput) (s : LoopState) : StepOut :=
  match generate_final_answer s.ctx i.synth with
  | .error e => .crashed e s.ctx []
  | .ok (ans, c') =>
    match format_context_for_display c' with
    | .error e => .crashed e c' []
    | .ok _ => .finished ans c' [.finishViaFINISH ans]

/-- One iteration of the `while mcp_planner.should_continue_scraping()` body
(lines 78-233): ask the planner for an action, dispatch on
`action_data.get("action", "").upper()`, unknown actions just log. -/
def mcpStep (goal : String) (loads : String → Option PyVal) (i : IterInput)
    (s : LoopState) : StepOut :=
  match decide_next_action goal i.planner_reply loads s.ctx s.current_url with
  | .error e => .crashed e s.ctx []
  | .ok actionData =>
    match actionDataOf actionData with
    | .error e => .crashed e s.ctx []
    | .ok d =>
      match actionNameOf d with
      | .error e => .crashed e s.ctx []
      | .ok act =>
        if act == "SEARCH" then searchBranch i s
        else if act == "NAVIGATE" then navigateBranch i s d
        else if act == "EXTRACT" then extractBranch i s
        else if act == "FINISH" then finishBranch i s
        else .cont s [.unknownAction act]

/-- How a run of `mcp_guided_scraping` ended: returned via the FINISH
branch, exited the loop and synthesized a best-effort answer (line 237),
crashed on an unhandled exception, or ran out of scripted iterations (the
model's fuel). -/
inductive RunResult where
  | finished (ans : String) (c : Context)
  | capped (ans : String) (c : Context)
  | crashed (e : String) (c : Context)
  | outOfInput (s : LoopState)

/-- A whole run: its result, the concatenated events, and the trace of every
loop state that existed (entry state of each iteration plus the final
context). -/
structure RunOut where
  result : RunResult
  events : List Event
  trace : List LoopState

/-- `mcp_guided_scraping` (lines 70-237) over a script of iteration inputs:
while `should_continue_scraping`, run one `mcpStep`; once the guard fails,
synthesize a final answer from whatever was collected (line 237). -/
def mcpRun (goal : String) (loads : String → Option PyVal)
    (finalSynth : Except String String) :
    List IterInput → LoopState → RunOut
  | inputs, s =>
    if should_continue_scraping s.ctx then
      match inputs with
      | [] => ⟨.outOfInput s, [], [s]⟩
      | i :: rest =>
        match mcpStep goal loads i s with
        | .cont s' evts =>
          let o := mcpRun goal loads finalSynth rest s'
          ⟨o.result, evts ++ o.events, s :: o.trace⟩
        | .finished ans c evts => ⟨.finished ans c, evts, [s, ⟨c, s.current_url⟩]⟩
        | .crashed e c evts => ⟨.crashed e c, evts, [s, ⟨c, s.current_url⟩]⟩
    else
      match generate_final_answer s.ctx finalSynth with
      | .error e => ⟨.crashed e s.ctx, [], [s]⟩
      | .ok (ans, c') => ⟨.capped ans c', [], [s, ⟨c', s.current_url⟩]⟩

/-- The loop state `mcp_guided_scraping` starts from: a fresh planner
context and `current_url = None` (line 75). -/
def initialLoopState : LoopState := ⟨initialContext, none⟩

/-! ## Properties of the extraction record shape (claims C1, C5, C7) -/

/-- Field lookup on an extraction record (only dicts have fields). -/
def recordLookup (r : PyVal) (k : String) : Option PyVal :=
  match r with
  | .dict d => lookupKey k d
  | _ => none

/-- The shape the spec promises of every extraction result: the five fixed
fields are present and `key_points` is a list. -/
def hasFiveFields (r : PyVal) : Bool :=
  (recordLookup r "action").isSome &&
  (recordLookup r "summary").isSome &&
  (match recordLookup r "key_points" with
   | some (.list _) => true
   | _ => false) &&
  (recordLookup r "context").isSome &&
  (recordLookup r "output").isSome

/-- The spec's restriction of `action` to the set `{final, next_url}`. -/
def actionRestricted (r : PyVal) : Bool :=
  match recordLookup r "action" with
  | some (.str a) => a == "final" || a == "next_url"
  | _ => false

/-- A `json.loads` behaviour for the concrete argument strings used in the
counterexamples and witnesses below, agreeing with the JSON standard on
every string of its domain. -/
def demoExtractionLoads : String → Option PyVal := fun s =>
  if s = "\x7b\"action\": \"maybe\"\x7d" then
    some (.dict [("action", .str "maybe")])
  else none

/-- C1. Corrected: the claim fails. An ordinary function-call oracle reply
whose JSON arguments are `\x7b"action": "maybe"\x7d` is returned verbatim by
`extract_with_function_call` (parse method 2, lines 108-124): the returned
record is missing `summary`, `key_points`, `context` and `output`, and its
`action` lies outside `{final, next_url}`. -/
theorem c1_counterexample :
    (extract_with_function_call
        (fun _ => .ok (.obj (some "\x7b\"action\": \"maybe\"\x7d") none none))
        demoExtractionLoads "content" "goal").1
      = .dict [("action", .str "maybe")]
    ∧ hasFiveFields (.dict [("action", .str "maybe")]) = false
    ∧ actionRestricted (.dict [("action", .str "maybe")]) = false := by
  refine ⟨?_, by decide, by decide⟩
  rfl

/-- C1 (amended): the five-field/`action`-set guarantee holds exactly for
the records `extract_with_function_call` builds itself — whenever the oracle
call fails, or no parse method accepts the reply (the cascade falls
through), the returned record has the five fixed fields with
`action = "next_url"`. A reply some parse method does accept is returned
verbatim, without any validation of its fields or its `action`. -/
theorem c1_extraction_shape (oracle : List Msg → Except String LLMResponse)
    (loads : String → Option PyVal) (content goal : String)
    (h : ∀ resp, oracle (extractionMessages content goal) = .ok resp →
      cascade resp loads = CascadeResult.fallback) :
    hasFiveFields (extract_with_function_call oracle loads content goal).1 = true
    ∧ actionRestricted (extract_with_function_call oracle loads content goal).1 = true := by
  unfold extract_with_function_call
  cases horacle : oracle (extractionMessages content goal) with
  | error e => simp only [horacle]; exact ⟨rfl, rfl⟩
  | ok resp =>
    have hc := h resp horacle
    simp only [horacle, hc]
    exact ⟨rfl, rfl⟩

/-- Witness for C1's amended theorem: a plain-text oracle reply that no
method can parse yields the well-shaped default record. -/
theorem c1_extraction_shape_witness :
    hasFiveFields (extract_with_function_call
        (fun _ => .ok (.pyStr "no json here")) (fun _ => none) "c" "g").1 = true
    ∧ actionRestricted (extract_with_function_call
        (fun _ => .ok (.pyStr "no json here")) (fun _ => none) "c" "g").1 = true :=
  c1_extraction_shape _ _ "c" "g"
    (fun resp h => by injection h with h2; subst h2; rfl)

/-- C5. Corrected: the claim fails on the oracle-failure path. When the
oracle call itself raises (outer `except`, lines 195-203), the returned
record is the default with `output = "Error: " + message` — a non-empty
`output`, not the all-empty record the claim promises. -/
theorem c5_counterexample :
    (extract_with_function_call (fun _ => .error "boom") (fun _ => none)
        "c" "g").1 = errorExtractionRecord "boom"
    ∧ recordLookup (errorExtractionRecord "boom") "output"
        = some (.str "Error: boom")
    ∧ "Error: boom" ≠ "" := by
  refine ⟨rfl, rfl, by decide⟩

/-- C5 (amended): parse failures (the cascade falling through) yield the
all-empty `next_url` default of lines 187-193; an oracle failure yields the
same record except that `output` carries `"Error: " + message`
(lines 197-202). In both cases the function returns normally — no exception
reaches the caller. -/
theorem c5_failure_defaults (oracle : List Msg → Except String LLMResponse)
    (loads : String → Option PyVal) (content goal : String) :
    (∀ resp, oracle (extractionMessages content goal) = .ok resp →
      cascade resp loads = CascadeResult.fallback →
      (extract_with_function_call oracle loads content goal).1
        = defaultExtractionRecord)
    ∧ (∀ e, oracle (extractionMessages content goal) = .error e →
      (extract_with_function_call oracle loads content goal).1
        = errorExtractionRecord e) := by
  constructor
  · intro resp hresp hc
    unfold extract_with_function_call
    simp only [hresp, hc]
  · intro e he
    unfold extract_with_function_call
    simp only [he]

/-- Witness for C5's amended theorem, on the parse-failure side. -/
theorem c5_failure_defaults_witness :
    (extract_with_function_call (fun _ => .ok (.pyStr "no json here"))
        (fun _ => none) "c" "g").1 = defaultExtractionRecord :=
  (c5_failure_defaults (fun _ => .ok (.pyStr "no json here"))
      (fun _ => none) "c" "g").1 (.pyStr "no json here") rfl rfl

/-- A page content longer than the 10000-character threshold of
`content[:10000]` (line 44). -/
def bigContent : String := ⟨List.replicate 10001 'a'⟩

/-- C7. Corrected: the claim fails. There is no chunking anywhere in the
extraction path: for a content exceeding the threshold the wrapper makes
exactly one oracle call (the claim's split/merge/decide protocol would make
at least two), the message it sends contains only the first 10000
characters, and the truncated content differs from the full content — the
tail is never sent to the oracle. -/
theorem c7_counterexample :
    bigContent.data.length > 10000
    ∧ ((extract_with_function_call (fun _ => .ok (.pyStr "r"))
        (fun _ => none) bigContent "g").2).length = 1
    ∧ extractionUserMsg bigContent "g"
        = extractionUserMsg (strTake 10000 bigContent) "g"
    ∧ strTake 10000 bigContent ≠ bigContent := by
  refine ⟨?_, rfl, ?_, ?_⟩
  · show (List.replicate 10001 'a').length > 10000
    rw [List.length_replicate]
    omega
  · have htt : strTake 10000 (strTake 10000 bigContent) = strTake 10000 bigContent := by
      unfold strTake
      exact congrArg String.mk (by rw [List.take_take, Nat.min_self])
    unfold extractionUserMsg
    exact congrArg
      (fun s => (⟨"user", "Question: " ++ "g" ++ "\n\n" ++ "Page Content:\n" ++ s⟩ : Msg))
      htt.symm
  · intro h
    have hd : List.take 10000 (List.replicate 10001 'a')
        = List.replicate 10001 'a' := congrArg String.data h
    have hlen := congrArg List.length hd
    rw [List.length_take, List.length_replicate] at hlen
    omega

/-- C7 (amended): oversized content is not chunked — every extraction issues
exactly one oracle call, whose user message carries the goal and the content
truncated to its first 10000 characters; no merge step and no second
action-deciding call exist. -/
theorem c7_single_truncated_call (oracle : List Msg → Except String LLMResponse)
    (loads : String → Option PyVal) (content goal : String) :
    (extract_with_function_call oracle loads content goal).2
      = [[extractionSystemMsg, extractionUserMsg content goal]]
    ∧ (extractionUserMsg content goal).content
      = "Question: " ++ goal ++ "\n\n" ++ "Page Content:\n"
        ++ strTake 10000 content :=
  ⟨rfl, rfl⟩

/-- C8. Corrected: the claim fails for `search_google`. The function has no
exception handler, so a driver failure during the result-page navigation
propagates to the caller instead of becoming an empty list. -/
theorem c8_counterexample :
    search_google (.error "net down") (.ok [⟨"t", "u"⟩]) = .error "net down"
    ∧ (Except.error "net down" : Except String (List SearchResult))
        ≠ .ok [] := by
  refine ⟨rfl, by simp⟩

/-- C8 (amended): only the no-next-page case returns an empty list —
`search_next_page` yields `[]` when the `a#pnnext` control is absent —
while scrape failures propagate: `search_google` re-raises any navigation
error unchanged (and `search_next_page` likewise re-raises click/parse
errors when the control exists). -/
theorem c8_next_page_empty_and_error_propagation :
    (∀ clickEval, search_next_page none clickEval = .ok [])
    ∧ (∀ e evalResults, search_google (.error e) evalResults = .error e)
    ∧ (∀ e, search_next_page (some ()) (.error e) = .error e) :=
  ⟨fun _ => rfl, fun _ _ => rfl, fun _ => rfl⟩

/-- A planner context holding one stored (unvisited) search result. -/
def ctxWithOneResult : Context :=
  ⟨[], [], [], [], some [.res ⟨"T", "u"⟩], none⟩

/-- C4. Corrected: the claim fails. With an unparseable planner reply, no
current page (`current_url = None`) and stored search results, the "smart
fallback" of lines 181-193 returns NAVIGATE, not the claimed EXTRACT
default (EXTRACT is chosen only when already on a page). -/
theorem c4_counterexample :
    decide_next_action "goal" (.ok "this is not json") (fun _ => none)
        ctxWithOneResult none
      = .ok (.dict [("action", .str "NAVIGATE")])
    ∧ "NAVIGATE" ≠ "EXTRACT" := by
  refine ⟨rfl, by decide⟩

/-- C4 (amended): a planner reply that fails to parse as JSON (after the
markdown-fence cleanup) never raises; it yields the default EXTRACT action
exactly when the loop is currently on a page (`current_url` truthy) —
otherwise the fallback picks NAVIGATE, FINISH or SEARCH from the context. -/
theorem c4_extract_default_on_page (goal raw : String)
    (loads : String → Option PyVal) (c : Context) (u : String)
    (hparse : loads (clean_planner_reply raw) = none) (hu : u ≠ "") :
    decide_next_action goal (.ok raw) loads c (some u)
      = .ok (.dict [("action", .str "EXTRACT")]) := by
  unfold decide_next_action
  dsimp only
  rw [hparse]
  simp [currentUrlTruthy, hu]

/-- Witness for C4's amended theorem: on a page, an unparseable reply gives
EXTRACT. -/
theorem c4_extract_default_on_page_witness :
    decide_next_action "goal" (.ok "this is not json") (fun _ => none)
        initialContext (some "http://x")
      = .ok (.dict [("action", .str "EXTRACT")]) :=
  c4_extract_default_on_page "goal" "this is not json" (fun _ => none)
    initialContext "http://x" rfl (by decide)

/-! ## C10: the relevance score added by `process_extracted_content` -/

/-- The spec's `action == final` test, on a whole record. -/
def recordActionFinal (r : PyVal) : Bool :=
  match recordLookup r "action" with
  | some v => pyEqStr v "final"
  | none => false

/-- `d[k] = v` makes `d.get(k)` yield `v`. -/
theorem dictSet_lookup_self (d : List (String × PyVal)) (k : String)
    (v : PyVal) : lookupKey k (dictSet d k v) = some v := by
  induction d with
  | nil => simp [dictSet, lookupKey]
  | cons p t ih =>
    obtain ⟨a, b⟩ := p
    by_cases hk : a = k
    · simp [dictSet, lookupKey, hk]
    · simp [dictSet, lookupKey, hk, ih]

/-- `d[k] = v` leaves every other key's value unchanged. -/
theorem dictSet_lookup_ne (d : List (String × PyVal)) (k k' : String)
    (v : PyVal) (hne : k' ≠ k) :
    lookupKey k' (dictSet d k v) = lookupKey k' d := by
  induction d with
  | nil =>
    have hkk : ¬k = k' := fun h => hne h.symm
    simp [dictSet, lookupKey, hkk]
  | cons p t ih =>
    obtain ⟨a, b⟩ := p
    by_cases hk : a = k
    · subst hk
      have hk' : ¬a = k' := fun h => hne h.symm
      simp [dictSet, lookupKey, hk']
    · by_cases hk2 : a = k'
      · subst hk2
        simp [dictSet, lookupKey, hk]
      · simp [dictSet, lookupKey, hk, hk2, ih]

/-- Bounds of the raw score computation. -/
theorem relevanceScore_bounds (d : List (String × PyVal)) (q : ℚ)
    (h : relevanceScore d = .ok q) :
    0 ≤ q ∧ q ≤ 1 ∧ (actionIsFinal d = true → q = 1)
      ∧ (actionIsFinal d = false → q ≤ 9/10) := by
  unfold relevanceScore at h
  by_cases hf : actionIsFinal d
  · rw [if_pos hf] at h
    injection h with h1
    subst h1
    exact ⟨by norm_num, by norm_num, fun _ => rfl, fun hc => by rw [hf] at hc; cases hc⟩
  · rw [if_neg hf] at h
    dsimp only at h
    by_cases hs : pyTruthy ((lookupKey "summary" d).getD (.str ""))
    · rw [if_pos hs] at h
      cases hl : pyLen ((lookupKey "key_points" d).getD (.list [])) with
      | none => rw [hl] at h; exact Except.noConfusion h
      | some n =>
        rw [hl] at h
        dsimp only at h
        by_cases hn : n > 2
        · rw [if_pos hn] at h
          injection h with h1
          subst h1
          refine ⟨le_min (by norm_num) (by positivity),
            (min_le_left _ _).trans (by norm_num),
            fun hc => absurd hc hf, fun _ => min_le_left _ _⟩
        · rw [if_neg hn] at h
          injection h with h1
          subst h1
          exact ⟨by norm_num, by norm_num, fun hc => absurd hc hf,
            fun _ => by norm_num⟩
    · rw [if_neg hs] at h
      injection h with h1
      subst h1
      exact ⟨le_refl 0, by norm_num, fun hc => absurd hc hf, fun _ => by norm_num⟩

/-- C10. Confirmed: every record `process_extracted_content` returns carries
a `relevance_score` between 0 and 1; it is exactly 1.0 when the record's
`action` equals `"final"` and at most 0.9 otherwise. -/
theorem c10_relevance_score (oracle : List Msg → Except String LLMResponse)
    (loads : String → Option PyVal) (content title url goal : String)
    (r : PyVal)
    (h : process_extracted_content oracle loads content title url goal = .ok r) :
    ∃ q : ℚ, recordLookup r "relevance_score" = some (.rat q)
      ∧ 0 ≤ q ∧ q ≤ 1
      ∧ (recordActionFinal r = true → q = 1)
      ∧ (recordActionFinal r = false → q ≤ 9/10) := by
  unfold process_extracted_content at h
  dsimp only at h
  cases her : (extract_with_function_call oracle loads
      (pageMetadata url title ++ content) goal).1 with
  | str s => rw [her] at h; exact Except.noConfusion h
  | rat qq => rw [her] at h; exact Except.noConfusion h
  | list xs => rw [her] at h; exact Except.noConfusion h
  | dict d =>
    rw [her] at h
    dsimp only at h
    cases hrs : relevanceScore d with
    | error e => rw [hrs] at h; exact Except.noConfusion h
    | ok q =>
      rw [hrs] at h
      simp only [Except.ok.injEq] at h
      subst h
      obtain ⟨hq0, hq1, hfin, hnfin⟩ := relevanceScore_bounds d q hrs
      have hscore : recordLookup
          (.dict (dictSet (dictSet (dictSet d "relevance_score" (.rat q))
            "page_url" (.str url)) "page_title" (.str title)))
          "relevance_score" = some (.rat q) := by
        unfold recordLookup
        dsimp only
        rw [dictSet_lookup_ne _ "page_title" "relevance_score" _ (by decide),
          dictSet_lookup_ne _ "page_url" "relevance_score" _ (by decide),
          dictSet_lookup_self]
      have haction : recordActionFinal
          (.dict (dictSet (dictSet (dictSet d "relevance_score" (.rat q))
            "page_url" (.str url)) "page_title" (.str title)))
          = actionIsFinal d := by
        unfold recordActionFinal recordLookup actionIsFinal
        dsimp only
        rw [dictSet_lookup_ne _ "page_title" "action" _ (by decide),
          dictSet_lookup_ne _ "page_url" "action" _ (by decide),
          dictSet_lookup_ne _ "relevance_score" "action" _ (by decide)]
      exact ⟨q, hscore, hq0, hq1,
        fun hc => hfin (haction ▸ hc), fun hc => hnfin (haction ▸ hc)⟩

/-- Witness for C10: a `final` record gets score exactly 1. -/
theorem c10_relevance_score_witness :
    ∃ q : ℚ, recordLookup
        (.dict [("action", .str "final"), ("relevance_score", .rat 1),
                ("page_url", .str "u"), ("page_title", .str "t")])
        "relevance_score" = some (.rat q)
      ∧ 0 ≤ q ∧ q ≤ 1
      ∧ (recordActionFinal
          (.dict [("action", .str "final"), ("relevance_score", .rat 1),
                  ("page_url", .str "u"), ("page_title", .str "t")]) = true
          → q = 1)
      ∧ (recordActionFinal
          (.dict [("action", .str "final"), ("relevance_score", .rat 1),
                  ("page_url", .str "u"), ("page_title", .str "t")]) = false
          → q ≤ 9/10) :=
  c10_relevance_score (fun _ => .ok (.pyDict [("action", .str "final")]))
    (fun _ => none) "c" "t" "u" "g" _ rfl

/-! ## Demo planner environment for concrete runs

The scripted oracle replies below are literal JSON texts; `demoPlannerLoads`
is a `json.loads` behaviour that agrees with the JSON standard on each of
them (and fails on everything else). -/

/-- `json.loads` on the planner replies used in concrete runs. -/
def demoPlannerLoads : String → Option PyVal := fun s =>
  if s = "\x7b\"action\": \"SEARCH\", \"query\": \"q\"\x7d" then
    some (.dict [("action", .str "SEARCH"), ("query", .str "q")])
  else if s = "\x7b\"action\": \"NAVIGATE\", \"url\": \"a\"\x7d" then
    some (.dict [("action", .str "NAVIGATE"), ("url", .str "a")])
  else if s = "\x7b\"action\": \"NAVIGATE\"\x7d" then
    some (.dict [("action", .str "NAVIGATE")])
  else if s = "\x7b\"action\": \"FINISH\"\x7d" then
    some (.dict [("action", .str "FINISH")])
  else none

/-- A well-shaped `next_url` extraction record used by scripted extractions. -/
def nextUrlRecord : PyVal :=
  .dict [("action", .str "next_url"), ("summary", .str "s"),
         ("key_points", .list []), ("context", .str ""), ("output", .str "")]

/-- An iteration whose planner reply is FINISH; the synthesis oracle answers
`"synth answer"`. -/
def iterFinish : IterInput :=
  ⟨.ok "\x7b\"action\": \"FINISH\"\x7d", .ok "q", .ok [], .ok (),
   .ok (.dict []), .ok nextUrlRecord, .ok [], .ok "synth answer"⟩

/-- C2. Corrected: the claim fails. Starting from a fresh context (no
extraction record at all, so certainly none with `action = "final"` or a
non-empty `output`), a FINISH reply on the very first iteration is honored:
the loop returns the synthesized answer through the FINISH branch. The trace
shows `extracted_content` stayed empty throughout. -/
theorem c2_counterexample :
    (mcpRun "goal" demoPlannerLoads (.ok "post") [iterFinish]
        initialLoopState).result
      = .finished "synth answer" ⟨[], [], [], ["synth answer"], none, none⟩
    ∧ (mcpRun "goal" demoPlannerLoads (.ok "post") [iterFinish]
        initialLoopState).events
      = [.finishViaFINISH "synth answer"]
    ∧ (mcpRun "goal" demoPlannerLoads (.ok "post") [iterFinish]
        initialLoopState).trace.map (fun st => st.ctx.extracted_content)
      = [[], []] :=
  ⟨rfl, by decide, rfl⟩

/-- Dispatch helper: a parsed FINISH reply sends the iteration to the FINISH
branch. -/
theorem mcpStep_finish (goal : String) (loads : String → Option PyVal)
    (i : IterInput) (s : LoopState) (d : List (String × PyVal)) (a : String)
    (hd : decide_next_action goal i.planner_reply loads s.ctx s.current_url
      = .ok (.dict d))
    (ha : lookupKey "action" d = some (.str a))
    (hA : pyUpper a = "FINISH") :
    mcpStep goal loads i s = finishBranch i s := by
  unfold mcpStep
  rw [hd]
  dsimp only [actionDataOf]
  unfold actionNameOf
  rw [ha]
  dsimp only
  rw [hA]
  simp

/-- C2 (amended): FINISH from the oracle is honored without any
extraction-record guard — whenever the planner reply parses to a FINISH
action and the branch's two unguarded calls succeed (`generate_final_answer`
and the `format_context_for_display` helper, which can raise, e.g., a
`TypeError` on a stored record with a non-string summary), the iteration
returns the synthesized answer via the FINISH branch. At no point is an
`action == "final"` / non-empty-`output` condition checked: FINISH returns
even with no extraction record at all. -/
theorem c2_finish_always_honored (goal : String)
    (loads : String → Option PyVal) (i : IterInput) (s : LoopState)
    (d : List (String × PyVal)) (a ans txt : String) (c' : Context)
    (hd : decide_next_action goal i.planner_reply loads s.ctx s.current_url
      = .ok (.dict d))
    (ha : lookupKey "action" d = some (.str a))
    (hA : pyUpper a = "FINISH")
    (hgen : generate_final_answer s.ctx i.synth = .ok (ans, c'))
    (hfmt : format_context_for_display c' = .ok txt) :
    mcpStep goal loads i s = .finished ans c' [.finishViaFINISH ans] := by
  rw [mcpStep_finish goal loads i s d a hd ha hA]
  unfold finishBranch
  rw [hgen]
  dsimp only
  rw [hfmt]

/-- Witness for C2's amended theorem: the first-iteration FINISH of the
counterexample run, through the step function. -/
theorem c2_finish_always_honored_witness :
    mcpStep "goal" demoPlannerLoads iterFinish initialLoopState
      = .finished "synth answer" ⟨[], [], [], ["synth answer"], none, none⟩
          [.finishViaFINISH "synth answer"] :=
  c2_finish_always_honored "goal" demoPlannerLoads iterFinish
    initialLoopState [("action", .str "FINISH")] "FINISH" "synth answer" _
    ⟨[], [], [], ["synth answer"], none, none⟩ rfl rfl rfl rfl rfl

/-! ## C3: the visited-URL cap -/

/-- A running loop has room below the cap. -/
theorem should_continue_length_lt (c : Context)
    (h : should_continue_scraping c = true) :
    c.visited_urls.length < max_visited_urls := by
  unfold should_continue_scraping at h
  split at h
  · exact Bool.noConfusion h
  · split at h
    · exact Bool.noConfusion h
    · rename_i hge
      omega

/-- `add_visited_url` keeps the list duplicate-free and, below the cap,
within the cap. -/
theorem add_visited_url_inv (c : Context) (u : String)
    (hn : c.visited_urls.Nodup)
    (hl : c.visited_urls.length < max_visited_urls) :
    (add_visited_url c u).visited_urls.Nodup
    ∧ (add_visited_url c u).visited_urls.length ≤ max_visited_urls := by
  unfold add_visited_url
  by_cases hc : c.visited_urls.contains u
  · rw [if_pos hc]
    exact ⟨hn, le_of_lt hl⟩
  · rw [if_neg hc]
    have hmem : u ∉ c.visited_urls := by
      intro hm
      exact hc (List.elem_eq_true_of_mem hm)
    constructor
    · simp [List.nodup_append, hn, hmem]
    · simp only [List.length_append, List.length_singleton]
      omega

/-- `generate_final_answer` never touches the visited list. -/
theorem generate_final_answer_visited (c : Context)
    (syn : Except String String) (ans : String) (c' : Context)
    (h : generate_final_answer c syn = .ok (ans, c')) :
    c'.visited_urls = c.visited_urls := by
  unfold generate_final_answer at h
  split at h
  · exact Except.noConfusion h
  · cases syn with
    | error e => exact Except.noConfusion h
    | ok a =>
      simp only [Except.ok.injEq, Prod.mk.injEq] at h
      rw [← h.2]

/-- The SEARCH branch never touches the visited list. -/
theorem searchBranch_visited (i : IterInput) (s : LoopState) :
    (searchBranch i s).ctxOut.visited_urls = s.ctx.visited_urls := by
  unfold searchBranch
  cases i.refine with
  | error e => rfl
  | ok refined =>
    cases i.search with
    | error e => rfl
    | ok results =>
      dsimp only
      split
      · split
        · split <;> rfl
        · rfl
      · rfl

/-- The EXTRACT branch never touches the visited list. -/
theorem extractBranch_visited (i : IterInput) (s : LoopState) :
    (extractBranch i s).ctxOut.visited_urls = s.ctx.visited_urls := by
  unfold extractBranch
  cases s.current_url with
  | none => rfl
  | some u =>
    dsimp only
    split
    · rfl
    · cases i.interactions with
      | error e =>
        cases i.extraction with
        | error e2 => rfl
        | ok v => rfl
      | ok w =>
        cases i.extraction with
        | error e2 =>
          dsimp only [StepOut.ctxOut]
          unfold update_context_interactive
          split <;> rfl
        | ok v =>
          dsimp only [StepOut.ctxOut]
          unfold add_extracted_content update_context_interactive
          split <;> rfl

/-- The FINISH branch never touches the visited list. -/
theorem finishBranch_visited (i : IterInput) (s : LoopState) :
    (finishBranch i s).ctxOut.visited_urls = s.ctx.visited_urls := by
  unfold finishBranch
  cases hgen : generate_final_answer s.ctx i.synth with
  | error e => rfl
  | ok p =>
    obtain ⟨ans, c'⟩ := p
    dsimp only
    cases format_context_for_display c' with
    | error e =>
      dsimp only [StepOut.ctxOut]
      exact generate_final_answer_visited s.ctx i.synth ans c' hgen
    | ok txt =>
      dsimp only [StepOut.ctxOut]
      exact generate_final_answer_visited s.ctx i.synth ans c' hgen

/-- The NAVIGATE branch leaves the visited list unchanged or records the one
URL it attempted. -/
theorem navigateBranch_visited (i : IterInput) (s : LoopState)
    (d : List (String × PyVal)) :
    (navigateBranch i s d).ctxOut.visited_urls = s.ctx.visited_urls
    ∨ ∃ u, (navigateBranch i s d).ctxOut.visited_urls
        = (add_visited_url s.ctx u).visited_urls := by
  unfold navigateBranch
  cases navResolve (lookupKey "url" d) s.ctx with
  | error e => left; rfl
  | ok o =>
    cases o with
    | badUrl v => left; rfl
    | noUrl =>
      left
      unfold navNextPage
      cases i.next_page with
      | error e => rfl
      | ok nr =>
        dsimp only
        split
        · rfl
        · dsimp only [StepOut.ctxOut]
          unfold update_context_search_results
          split <;> rfl
    | toUrl u =>
      unfold navPerform
      cases i.nav with
      | error e => left; rfl
      | ok _ =>
        right
        refine ⟨u, ?_⟩
        cases i.interactions with
        | error e2 =>
          cases i.extraction with
          | error e3 => rfl
          | ok v => rfl
        | ok w =>
          cases i.extraction with
          | error e3 =>
            dsimp only [StepOut.ctxOut]
            unfold update_context_interactive
            split <;> rfl
          | ok v =>
            dsimp only [StepOut.ctxOut]
            unfold add_extracted_content update_context_interactive
            split <;> rfl

/-- One iteration leaves the visited list unchanged or adds the one URL it
navigated to. -/
theorem mcpStep_visited (goal : String) (loads : String → Option PyVal)
    (i : IterInput) (s : LoopState) :
    (mcpStep goal loads i s).ctxOut.visited_urls = s.ctx.visited_urls
    ∨ ∃ u, (mcpStep goal loads i s).ctxOut.visited_urls
        = (add_visited_url s.ctx u).visited_urls := by
  unfold mcpStep
  cases decide_next_action goal i.planner_reply loads s.ctx s.current_url with
  | error e => left; rfl
  | ok ad =>
    cases ad with
    | str v => left; rfl
    | rat v => left; rfl
    | list v => left; rfl
    | dict dd =>
      dsimp only [actionDataOf]
      cases actionNameOf dd with
      | error e => left; rfl
      | ok act =>
        dsimp only
        split
        · left; exact searchBranch_visited i s
        · split
          · exact navigateBranch_visited i s dd
          · split
            · left; exact extractBranch_visited i s
            · split
              · left; exact finishBranch_visited i s
              · left; rfl

/-- The step invariant: while the loop is running, an iteration preserves
distinctness and the cap. -/
theorem mcpStep_inv (goal : String) (loads : String → Option PyVal)
    (i : IterInput) (s : LoopState)
    (hcont : should_continue_scraping s.ctx = true)
    (hn : s.ctx.visited_urls.Nodup)
    (hl : s.ctx.visited_urls.length ≤ max_visited_urls) :
    (mcpStep goal loads i s).ctxOut.visited_urls.Nodup
    ∧ (mcpStep goal loads i s).ctxOut.visited_urls.length
        ≤ max_visited_urls := by
  rcases mcpStep_visited goal loads i s with heq | ⟨u, heq⟩
  · rw [heq]; exact ⟨hn, hl⟩
  · rw [heq]
    exact add_visited_url_inv s.ctx u hn (should_continue_length_lt s.ctx hcont)

/-- Invariant over whole runs, from any state satisfying it. -/
theorem mcpRun_trace_inv (goal : String) (loads : String → Option PyVal)
    (finalSynth : Except String String) :
    ∀ (inputs : List IterInput) (s : LoopState),
      s.ctx.visited_urls.Nodup →
      s.ctx.visited_urls.length ≤ max_visited_urls →
      ∀ t ∈ (mcpRun goal loads finalSynth inputs s).trace,
        t.ctx.visited_urls.Nodup
        ∧ t.ctx.visited_urls.length ≤ max_visited_urls := by
  intro inputs
  induction inputs with
  | nil =>
    intro s hn hl t ht
    unfold mcpRun at ht
    by_cases hc : should_continue_scraping s.ctx
    · rw [if_pos hc] at ht
      dsimp only at ht
      cases ht with
      | head => exact ⟨hn, hl⟩
      | tail _ h2 => exact absurd h2 (List.not_mem_nil t)
    · rw [if_neg hc] at ht
      cases hgen : generate_final_answer s.ctx finalSynth with
      | error e =>
        rw [hgen] at ht
        cases ht with
        | head => exact ⟨hn, hl⟩
        | tail _ h2 => exact absurd h2 (List.not_mem_nil t)
      | ok p =>
        obtain ⟨ans, c'⟩ := p
        rw [hgen] at ht
        dsimp only at ht
        cases ht with
        | head => exact ⟨hn, hl⟩
        | tail _ h2 =>
          cases h2 with
          | head =>
            have hv := generate_final_answer_visited s.ctx finalSynth ans c' hgen
            dsimp only
            rw [hv]
            exact ⟨hn, hl⟩
          | tail _ h3 => exact absurd h3 (List.not_mem_nil t)
  | cons i rest ih =>
    intro s hn hl t ht
    unfold mcpRun at ht
    by_cases hc : should_continue_scraping s.ctx
    · rw [if_pos hc] at ht
      dsimp only at ht
      cases hstep : mcpStep goal loads i s with
      | cont s' evts =>
        rw [hstep] at ht
        dsimp only at ht
        cases ht with
        | head => exact ⟨hn, hl⟩
        | tail _ h2 =>
          have hinv := mcpStep_inv goal loads i s hc hn hl
          rw [hstep] at hinv
          exact ih s' hinv.1 hinv.2 t h2
      | finished ans c evts =>
        rw [hstep] at ht
        dsimp only at ht
        have hinv := mcpStep_inv goal loads i s hc hn hl
        rw [hstep] at hinv
        cases ht with
        | head => exact ⟨hn, hl⟩
        | tail _ h2 =>
          cases h2 with
          | head => exact hinv
          | tail _ h3 => exact absurd h3 (List.not_mem_nil t)
      | crashed e c evts =>
        rw [hstep] at ht
        dsimp only at ht
        have hinv := mcpStep_inv goal loads i s hc hn hl
        rw [hstep] at hinv
        cases ht with
        | head => exact ⟨hn, hl⟩
        | tail _ h2 =>
          cases h2 with
          | head => exact hinv
          | tail _ h3 => exact absurd h3 (List.not_mem_nil t)
    · rw [if_neg hc] at ht
      cases hgen : generate_final_answer s.ctx finalSynth with
      | error e =>
        rw [hgen] at ht
        cases ht with
        | head => exact ⟨hn, hl⟩
        | tail _ h2 => exact absurd h2 (List.not_mem_nil t)
      | ok p =>
        obtain ⟨ans, c'⟩ := p
        rw [hgen] at ht
        dsimp only at ht
        cases ht with
        | head => exact ⟨hn, hl⟩
        | tail _ h2 =>
          cases h2 with
          | head =>
            have hv := generate_final_answer_visited s.ctx finalSynth ans c' hgen
            dsimp only
            rw [hv]
            exact ⟨hn, hl⟩
          | tail _ h3 => exact absurd h3 (List.not_mem_nil t)

/-- C3. Confirmed: in every run of the MCP-guided loop from the initial
state, every state ever reached keeps the visited-URL list duplicate-free
(so its length counts distinct URLs) and its length never exceeds
`max_visited_urls = 15`: `should_continue_scraping` is re-checked before
each iteration, an iteration appends at most one URL, and `add_visited_url`
never appends a URL already present. -/
theorem c3_visited_urls_bounded (goal : String)
    (loads : String → Option PyVal) (finalSynth : Except String String)
    (inputs : List IterInput) (t : LoopState)
    (ht : t ∈ (mcpRun goal loads finalSynth inputs initialLoopState).trace) :
    t.ctx.visited_urls.Nodup
    ∧ t.ctx.visited_urls.length ≤ max_visited_urls :=
  mcpRun_trace_inv goal loads finalSynth inputs initialLoopState
    (List.nodup_nil) (by simp [initialLoopState, initialContext, max_visited_urls]) t ht

/-- Witness for C3 on the concrete FINISH run: the final state of the run is
in its trace and satisfies the bound. -/
theorem c3_visited_urls_bounded_witness :
    (⟨⟨[], [], [], ["synth answer"], none, none⟩, none⟩ : LoopState).ctx.visited_urls.Nodup
    ∧ (⟨⟨[], [], [], ["synth answer"], none, none⟩, none⟩ : LoopState).ctx.visited_urls.length
        ≤ max_visited_urls :=
  c3_visited_urls_bounded "goal" demoPlannerLoads (.ok "post") [iterFinish]
    ⟨⟨[], [], [], ["synth answer"], none, none⟩, none⟩
    (by rw [show (mcpRun "goal" demoPlannerLoads (.ok "post") [iterFinish]
        initialLoopState).trace
      = [initialLoopState, ⟨⟨[], [], [], ["synth answer"], none, none⟩, none⟩]
      from rfl]
        exact List.mem_cons_of_mem _ (List.mem_singleton.mpr rfl))

/-! ## C6 and C9: NAVIGATE with a missing or placeholder URL -/

/-- The URL of the first stored search result not yet visited, if any. -/
def firstUnvisitedUrl (l : List SRItem) (visited : List String) :
    Option String :=
  ((l.filterMap SRItem.urlOf).filter fun u => !(visited.contains u)).head?

theorem navigateChoice_of_first_unvisited (l : List SRItem)
    (visited : List String) (u : String)
    (h : firstUnvisitedUrl l visited = some u) :
    navigateChoice l visited = u := by
  unfold navigateChoice
  unfold firstUnvisitedUrl at h
  dsimp only
  cases hl : (l.filterMap SRItem.urlOf).filter (fun x => !(visited.contains x)) with
  | nil => rw [hl] at h; exact Option.noConfusion h
  | cons a t =>
    rw [hl] at h
    injection h with h1

/-- With stored, well-formed (non-nested) search results, the substitution
always navigates to `navigateChoice` (regardless of the original URL
value), provided that choice is non-empty. -/
theorem navSubstitute_chooses (orig : Option PyVal) (c : Context)
    (l : List SRItem) (hres : c.search_results = some l)
    (hnonest : (l.any fun it =>
      match it with | .nested _ => true | _ => false) = false)
    (hne : l ≠ [])
    (hu : navigateChoice l c.visited_urls ≠ "") :
    navSubstitute orig c
      = .ok (.toUrl (navigateChoice l c.visited_urls)) := by
  unfold navSubstitute
  rw [hres]
  have hemp : l.isEmpty = false := by
    cases l with
    | nil => exact absurd rfl hne
    | cons a t => rfl
  have hbeq : (navigateChoice l c.visited_urls == "") = false := by
    simp [hu]
  simp only [Option.getD, hemp, hnonest, Bool.false_eq_true, if_false, hbeq]

/-- A missing, empty or placeholder URL triggers the substitution, which
lands on `navigateChoice`. -/
theorem navResolve_chooses (urlv : Option PyVal) (c : Context)
    (l : List SRItem)
    (hurl : urlv = none
      ∨ ∃ u0, urlv = some (.str u0)
          ∧ (u0 = "" ∨ strContains "example.com" u0 = true))
    (hres : c.search_results = some l)
    (hnonest : (l.any fun it =>
      match it with | .nested _ => true | _ => false) = false)
    (hne : l ≠ [])
    (hu : navigateChoice l c.visited_urls ≠ "") :
    navResolve urlv c
      = .ok (.toUrl (navigateChoice l c.visited_urls)) := by
  rcases hurl with h0 | ⟨u0, hv, hcase⟩
  · subst h0
    unfold navResolve
    exact navSubstitute_chooses none c l hres hnonest hne hu
  · subst hv
    unfold navResolve
    by_cases h0 : u0 = ""
    · subst h0
      dsimp only
      rw [show pyTruthy (.str "") = false from rfl]
      simp only [Bool.false_eq_true, if_false]
      exact navSubstitute_chooses _ c l hres hnonest hne hu
    · have hcont : strContains "example.com" u0 = true := by
        rcases hcase with h1 | h1
        · exact absurd h1 h0
        · exact h1
      have hin : pyInStr "example.com" (.str u0) = some true := by
        unfold pyInStr
        exact congrArg some hcont
      have htr : pyTruthy (.str u0) = true := by
        unfold pyTruthy
        simp [h0]
      dsimp only
      rw [htr]
      simp only [if_true, hin]
      exact navSubstitute_chooses _ c l hres hnonest hne hu

/-- Dispatch helper: a parsed NAVIGATE reply sends the iteration to the
NAVIGATE branch. -/
theorem mcpStep_navigate (goal : String) (loads : String → Option PyVal)
    (i : IterInput) (s : LoopState) (d : List (String × PyVal)) (a : String)
    (hd : decide_next_action goal i.planner_reply loads s.ctx s.current_url
      = .ok (.dict d))
    (ha : lookupKey "action" d = some (.str a))
    (hA : pyUpper a = "NAVIGATE") :
    mcpStep goal loads i s = navigateBranch i s d := by
  unfold mcpStep
  rw [hd]
  dsimp only [actionDataOf]
  unfold actionNameOf
  rw [ha]
  dsimp only
  rw [hA]
  simp

/-- An iteration whose planner reply is a NAVIGATE without a URL. -/
def iterNavNoUrl : IterInput :=
  ⟨.ok "\x7b\"action\": \"NAVIGATE\"\x7d", .ok "q", .ok [], .ok (),
   .ok (.dict []), .ok nextUrlRecord, .ok [], .ok "x"⟩

/-- An iteration that performs a SEARCH whose result list comes back
empty. -/
def iterSearchEmpty : IterInput :=
  ⟨.ok "\x7b\"action\": \"SEARCH\", \"query\": \"q\"\x7d", .ok "q",
   .ok [], .ok (), .ok (.dict []), .ok nextUrlRecord, .ok [], .ok "x"⟩

/-- An iteration with a URL-less NAVIGATE whose next-page fetch finds the
result `y`. -/
def iterNavNoUrlNext : IterInput :=
  ⟨.ok "\x7b\"action\": \"NAVIGATE\"\x7d", .ok "q", .ok [], .ok (),
   .ok (.dict []), .ok nextUrlRecord, .ok [⟨"N", "y"⟩], .ok "x"⟩

/-- A loop state holding one stored result whose URL is the empty string
(unvisited, since `""` is not among the visited URLs). -/
def stateWithEmptyUrlResult : LoopState :=
  ⟨⟨[], [], [], [], some [.res ⟨"T", ""⟩], none⟩, none⟩

/-- C6. Corrected: the claim fails on two reachable context shapes.

First, a run from the initial state: a SEARCH whose result list is empty
installs `search_results = []`; a URL-less NAVIGATE then paginates, and
`update_context` (planner lines 43-47) appends the fetched page as one
nested element. On the next URL-less NAVIGATE the context holds the
unvisited result `y` (inside that element), yet the comprehension at
orchestrator line 119 calls `r.get("url")` on the nested list and raises:
the task crashes with no navigation attempt instead of navigating to `y`.

Second, with a stored unvisited result whose URL is the empty string, the
chosen URL is falsy, so the loop paginates (`nextPageCall`) instead of
navigating to that result's URL. -/
theorem c6_counterexample :
    (mcpRun "goal" demoPlannerLoads (.ok "fin")
        [iterSearchEmpty, iterNavNoUrlNext, iterNavNoUrl]
        initialLoopState).result
      = .crashed "AttributeError: get"
          ⟨[], [], ["q"], [], some [.nested [⟨"N", "y"⟩]], none⟩
    ∧ (mcpRun "goal" demoPlannerLoads (.ok "fin")
        [iterSearchEmpty, iterNavNoUrlNext, iterNavNoUrl]
        initialLoopState).events
      = [.searched "q", .nextPageCall]
    ∧ Event.navAttempt "y" ∉ (mcpRun "goal" demoPlannerLoads (.ok "fin")
        [iterSearchEmpty, iterNavNoUrlNext, iterNavNoUrl]
        initialLoopState).events
    ∧ (mcpStep "goal" demoPlannerLoads iterNavNoUrl
        stateWithEmptyUrlResult).events = [.nextPageCall]
    ∧ firstUnvisitedUrl [.res ⟨"T", ""⟩] [] = some "" :=
  ⟨by rfl, by decide, by decide, by decide, by rfl⟩

/-- C6 (amended): whenever the planner's parsed reply is a NAVIGATE whose
URL is missing, empty, or contains the placeholder domain `example.com`,
and the stored search-result list consists of plain (non-nested) result
records of which the first unvisited one has a non-empty URL, the
orchestrator attempts navigation to that URL. (A nested element — the
artifact of the next-page `update_context` append — makes the lookup raise
and the task crash instead; an empty chosen URL sends the loop to
pagination instead.) -/
theorem c6_navigate_placeholder_fallback (goal : String)
    (loads : String → Option PyVal) (i : IterInput) (s : LoopState)
    (d : List (String × PyVal)) (a u : String) (l : List SRItem)
    (hd : decide_next_action goal i.planner_reply loads s.ctx s.current_url
      = .ok (.dict d))
    (ha : lookupKey "action" d = some (.str a))
    (hA : pyUpper a = "NAVIGATE")
    (hurl : lookupKey "url" d = none
      ∨ ∃ u0, lookupKey "url" d = some (.str u0)
          ∧ (u0 = "" ∨ strContains "example.com" u0 = true))
    (hres : s.ctx.search_results = some l)
    (hnonest : (l.any fun it =>
      match it with | .nested _ => true | _ => false) = false)
    (hfu : firstUnvisitedUrl l s.ctx.visited_urls = some u)
    (hu : u ≠ "") :
    Event.navAttempt u ∈ (mcpStep goal loads i s).events := by
  rw [mcpStep_navigate goal loads i s d a hd ha hA]
  unfold navigateBranch
  have hne : l ≠ [] := by
    intro h
    subst h
    unfold firstUnvisitedUrl at hfu
    simp at hfu
  have hchoice : navigateChoice l s.ctx.visited_urls = u :=
    navigateChoice_of_first_unvisited l s.ctx.visited_urls u hfu
  have hr := navResolve_chooses (lookupKey "url" d) s.ctx l hurl hres hnonest
    hne (by rw [hchoice]; exact hu)
  rw [hr, hchoice]
  dsimp only
  unfold navPerform
  cases i.nav with
  | error e => exact List.mem_singleton.mpr rfl
  | ok _ =>
    dsimp only
    cases i.extraction with
    | error e2 => exact List.mem_singleton.mpr rfl
    | ok v => exact List.mem_cons_self _ _

/-- A loop state holding one stored, unvisited search result. -/
def stateWithOneResult : LoopState :=
  ⟨⟨[], [], [], [], some [.res ⟨"T", "b"⟩], none⟩, none⟩

/-- Witness for C6: a NAVIGATE with no URL and one unvisited stored result
attempts navigation to that result's URL. -/
theorem c6_navigate_placeholder_fallback_witness :
    Event.navAttempt "b"
      ∈ (mcpStep "goal" demoPlannerLoads iterNavNoUrl stateWithOneResult).events :=
  c6_navigate_placeholder_fallback "goal" demoPlannerLoads iterNavNoUrl
    stateWithOneResult [("action", .str "NAVIGATE")] "NAVIGATE" "b"
    [.res ⟨"T", "b"⟩] rfl rfl rfl (Or.inl rfl) rfl rfl rfl (by decide)

/-- An iteration that performs a SEARCH finding one result `a`. -/
def iterSearch : IterInput :=
  ⟨.ok "\x7b\"action\": \"SEARCH\", \"query\": \"q\"\x7d", .ok "q",
   .ok [⟨"T", "a"⟩], .ok (), .ok (.dict []), .ok nextUrlRecord, .ok [],
   .ok "x"⟩

/-- An iteration that navigates to `a` explicitly. -/
def iterNavA : IterInput :=
  ⟨.ok "\x7b\"action\": \"NAVIGATE\", \"url\": \"a\"\x7d", .ok "q",
   .ok [], .ok (), .ok (.dict []), .ok nextUrlRecord, .ok [], .ok "x"⟩

/-- C9. Corrected: the claim fails. In a run that searches (finding the one
result `a`), navigates to `a`, and then receives a NAVIGATE with no URL
while every stored search-result URL is already visited, the orchestrator
does **not** fetch the next results page: it re-navigates to the first
result `a` (events show a second `navAttempt "a"` and no next-page call).
`search_next_page` is reached only when no search results are stored at
all. -/
theorem c9_counterexample :
    (mcpRun "goal" demoPlannerLoads (.ok "fin")
        [iterSearch, iterNavA, iterNavNoUrl] initialLoopState).events
      = [.searched "q", .navAttempt "a", .extractedAt "a",
         .navAttempt "a", .extractedAt "a"]
    ∧ Event.nextPageCall ∉ (mcpRun "goal" demoPlannerLoads (.ok "fin")
        [iterSearch, iterNavA, iterNavNoUrl] initialLoopState).events
    ∧ (mcpRun "goal" demoPlannerLoads (.ok "fin")
        [iterSearch, iterNavA, iterNavNoUrl] initialLoopState).trace.map
        (fun st => st.ctx.visited_urls)
      = [[], [], ["a"], ["a"]]
    ∧ (mcpRun "goal" demoPlannerLoads (.ok "fin")
        [iterSearch, iterNavA, iterNavNoUrl] initialLoopState).trace.map
        (fun st => st.ctx.search_results)
      = [none, some [.res ⟨"T", "a"⟩], some [.res ⟨"T", "a"⟩],
         some [.res ⟨"T", "a"⟩]] :=
  ⟨by decide, by decide, rfl, rfl⟩

/-- C9 (amended): on a NAVIGATE with no URL, `search_next_page` is reached
exactly when `url_to_navigate` stays falsy after the substitution: when the
context holds no search results at all, and also when well-formed stored
results yield an empty chosen URL (all result URLs falsy). When the stored,
nested-free results give a non-empty choice — the first unvisited result's
URL, or the first result's when all are visited — the orchestrator
navigates to that choice and never calls `search_next_page`; a nested
stored element instead crashes the task before either path (see C6's
counterexample). -/
theorem c9_next_page_only_without_results (goal : String)
    (loads : String → Option PyVal) (i : IterInput) (s : LoopState)
    (d : List (String × PyVal)) (a : String)
    (hd : decide_next_action goal i.planner_reply loads s.ctx s.current_url
      = .ok (.dict d))
    (ha : lookupKey "action" d = some (.str a))
    (hA : pyUpper a = "NAVIGATE")
    (hurl : lookupKey "url" d = none) :
    (s.ctx.search_results.getD [] = [] →
      Event.nextPageCall ∈ (mcpStep goal loads i s).events)
    ∧ (∀ l, s.ctx.search_results = some l →
        (l.any fun it =>
          match it with | .nested _ => true | _ => false) = false →
        l ≠ [] → navigateChoice l s.ctx.visited_urls ≠ "" →
        Event.navAttempt (navigateChoice l s.ctx.visited_urls)
          ∈ (mcpStep goal loads i s).events
        ∧ Event.nextPageCall ∉ (mcpStep goal loads i s).events)
    ∧ (∀ l, s.ctx.search_results = some l →
        (l.any fun it =>
          match it with | .nested _ => true | _ => false) = false →
        l ≠ [] → navigateChoice l s.ctx.visited_urls = "" →
        Event.nextPageCall ∈ (mcpStep goal loads i s).events) := by
  rw [mcpStep_navigate goal loads i s d a hd ha hA]
  refine ⟨?_, ?_, ?_⟩
  · intro hres0
    unfold navigateBranch
    rw [hurl]
    have hnr : navResolve none s.ctx = .ok NavTarget.noUrl := by
      unfold navResolve navSubstitute
      dsimp only
      rw [hres0]
      rfl
    rw [hnr]
    unfold navNextPage
    cases i.next_page with
    | error e => exact List.mem_singleton.mpr rfl
    | ok nr =>
      dsimp only
      split
      · exact List.mem_singleton.mpr rfl
      · exact List.mem_singleton.mpr rfl
  · intro l hres hnonest hne hu
    have hr := navResolve_chooses (lookupKey "url" d) s.ctx l (Or.inl hurl)
      hres hnonest hne hu
    unfold navigateBranch
    rw [hr]
    dsimp only
    unfold navPerform
    cases i.nav with
    | error e =>
      exact ⟨List.mem_singleton.mpr rfl, by simp [StepOut.events]⟩
    | ok _ =>
      dsimp only
      cases i.extraction with
      | error e2 => exact ⟨List.mem_singleton.mpr rfl, by simp [StepOut.events]⟩
      | ok v => exact ⟨List.mem_cons_self _ _, by simp [StepOut.events]⟩
  · intro l hres hnonest hne hch
    unfold navigateBranch
    rw [hurl]
    have hemp : l.isEmpty = false := by
      cases l with
      | nil => exact absurd rfl hne
      | cons a t => rfl
    have hnr : navResolve none s.ctx = .ok NavTarget.noUrl := by
      unfold navResolve navSubstitute
      rw [hres]
      simp [Option.getD, hemp, hnonest, hch]
    rw [hnr]
    unfold navNextPage
    cases i.next_page with
    | error e => exact List.mem_singleton.mpr rfl
    | ok nr =>
      dsimp only
      split
      · exact List.mem_singleton.mpr rfl
      · exact List.mem_singleton.mpr rfl

/-- Witness for C9's amended theorem: with one stored unvisited result and
a URL-less NAVIGATE, the step navigates to it and makes no next-page
call. -/
theorem c9_next_page_only_without_results_witness :
    Event.navAttempt "b"
      ∈ (mcpStep "goal" demoPlannerLoads iterNavNoUrl stateWithOneResult).events
    ∧ Event.nextPageCall
      ∉ (mcpStep "goal" demoPlannerLoads iterNavNoUrl stateWithOneResult).events :=
  (c9_next_page_only_without_results "goal" demoPlannerLoads iterNavNoUrl
      stateWithOneResult [("action", .str "NAVIGATE")] "NAVIGATE"
      rfl rfl rfl rfl).2.1
    [.res ⟨"T", "b"⟩] rfl rfl (by decide) (by decide)
